import Mathlib

set_option maxRecDepth 10000

/-!
Verification development for the VetData scraping pipeline.

This file shallowly embeds the core of the repository:
* `Scrapper/gerenciador_conexoes.py` — the hybrid acquisition coordinator
  (`ManipuladorRequests.fazer_requisicao`, `GerenciadorConexaoHibrida`);
* `Scrapper/scraper_cobasi.py` and `Scraper/scraper_petz.py` — the two
  structured-payload extraction adapters (including their `_formatar_preco`
  helpers and a model of Python `json.loads`);
* `Scraper/scraper_base.py` / `Scraper/scraper_petlove.py` — the test-mode
  cap and the secondary variant fetch.

Effectful Python code is embedded by explicit state passing plus an event
trace; fallible code returns `Option`; the network is an oracle parameter.
-/

namespace VetData

/-! ## Python string/number primitives

The embedding implements the Python string operations it needs over the
character list of a `String` (rather than through the opaque byte-position
based library functions), so that every definition evaluates by kernel
reduction on concrete inputs. -/

/-- Decimal digits of a natural number, most significant first (the first
argument is fuel; `n + 1` always suffices). -/
def digitosDecimais : Nat → Nat → List Char
  | 0, _ => []
  | fuel + 1, n =>
    if n < 10 then [Char.ofNat (48 + n)]
    else digitosDecimais fuel (n / 10) ++ [Char.ofNat (48 + n % 10)]

/-- Python `str()` of a nonnegative integer. -/
def natParaString (n : Nat) : String :=
  String.mk (digitosDecimais (n + 1) n)

/-- Python `str()` of an integer. -/
def intParaString (i : ℤ) : String :=
  if i < 0 then "-" ++ natParaString (-i).toNat else natParaString i.toNat

/-- The whitespace characters Python `str.strip()` removes (space, tab,
newline, carriage return, vertical tab, form feed). -/
def ehEspacoPy (c : Char) : Bool :=
  c = ' ' ∨ c = Char.ofNat 9 ∨ c = Char.ofNat 10 ∨ c = Char.ofNat 13 ∨
    c = Char.ofNat 11 ∨ c = Char.ofNat 12

/-- Python `str.strip()`. -/
def stripPy (s : String) : String :=
  String.mk (((s.data.dropWhile ehEspacoPy).reverse.dropWhile ehEspacoPy).reverse)

/-- Whether `p` is a prefix of `s` (character lists). -/
def prefixoDe : List Char → List Char → Bool
  | [], _ => true
  | _ :: _, [] => false
  | c :: ps, d :: ss => c = d && prefixoDe ps ss

/-- Python `s.startswith(p)`. -/
def comecaCom (s p : String) : Bool := prefixoDe p.data s.data

/-! ## Hybrid connection manager (`Scrapper/gerenciador_conexoes.py`) -/

/-- Outcome of one `self.session.get(url, ...)` call inside
`ManipuladorRequests.fazer_requisicao`: either an HTTP response with a
status code and a body (`resposta.text`), or one of the exceptions the
source catches. -/
inductive HttpAttempt where
  | response (code : Nat) (body : String)
  | timeoutExc
  | connectionExc
  | otherExc (msg : String)
deriving DecidableEq, Repr

/-- A `requests.Response` is modelled by its status code and body text;
`fazer_requisicao` returns `(Response | None, motivo)`. -/
abbrev RespostaHttp := Nat × String

/-- Loop body of `ManipuladorRequests.fazer_requisicao`
(`gerenciador_conexoes.py` lines 75-104), iterating `tentativa` over
`range(max_tentativas)`; `oracle i` is the result of the GET issued on
attempt `i`.  Besides the source's return value `(Response | None, motivo)`
we record how many GET attempts were actually issued, so that theorems can
speak about early termination.  The User-Agent rotation and the progressive
`time.sleep` are side effects with no influence on the returned data and are
not modelled. -/
def fazer_requisicao_de (oracle : Nat → HttpAttempt) :
    (restantes tentativa : Nat) → Option RespostaHttp × String × Nat
  | 0, _ => (none, "max_tentativas_excedidas", 0)
  | restantes + 1, tentativa =>
    match oracle tentativa with
    | .response code body =>
      if code = 200 then (some (code, body), "sucesso", 1)
      else if code = 403 then (none, "bloqueado_403", 1)
      else if code = 429 then (none, "muitas_requisicoes", 1)
      else (none, "status_" ++ natParaString code, 1)
    | .timeoutExc =>
      -- `except requests.exceptions.Timeout`: `if tentativa ==
      -- max_tentativas - 1: return None, "timeout"` (no attempt remains
      -- after this one), otherwise fall through to the next iteration.
      if restantes = 0 then (none, "timeout", 1)
      else
        let (r, m, n) := fazer_requisicao_de oracle restantes (tentativa + 1)
        (r, m, n + 1)
    | .connectionExc => (none, "conexao_falhou", 1)
    | .otherExc msg => (none, "erro_geral_" ++ String.mk (msg.data.take 50), 1)

/-- `ManipuladorRequests.fazer_requisicao(url, max_tentativas=2)`; the third
component counts the GET attempts issued. -/
def fazer_requisicao (oracle : Nat → HttpAttempt) (max_tentativas : Nat := 2) :
    Option RespostaHttp × String × Nat :=
  fazer_requisicao_de oracle max_tentativas 0

/-- The `self.stats_metodos` dict of `GerenciadorConexaoHibrida`. -/
structure StatsMetodos where
  requests_sucesso : Nat
  selenium_fallback : Nat
  falhas_totais : Nat
deriving DecidableEq, Repr

/-- Mutable state of one `GerenciadorConexaoHibrida` instance. -/
structure EstadoGerenciador where
  selenium_inicializado : Bool
  stats : StatsMetodos
deriving DecidableEq, Repr

/-- `GerenciadorConexaoHibrida.__init__` (lines 209-219). -/
def estadoInicial : EstadoGerenciador :=
  { selenium_inicializado := false
    stats := { requests_sucesso := 0, selenium_fallback := 0, falhas_totais := 0 } }

/-- Observable side effects of one `obter_conteudo_pagina` call:
the fast-strategy request, the construction of a fresh
`ManipuladorSelenium()` instance, a `inicializar_driver()` engine spin-up
attempt, and a `navegar_para_url` browser navigation. -/
inductive Evento where
  | evRequisicao
  | evNovaInstanciaSelenium
  | evInicializarDriver
  | evNavegar
deriving DecidableEq, Repr

/-- External world for one `obter_conteudo_pagina` call: the result of
`manipulador_requests.fazer_requisicao(url)`, whether
`inicializar_driver()` would succeed, and the `(sucesso, conteudo)` pair
`navegar_para_url` would return. -/
structure OraculoChamada where
  requisicao : Option RespostaHttp × String
  driverOk : Bool
  navegacao : Bool × String
deriving DecidableEq, Repr

/-- `navegar_para_url` call and result handling inside
`obter_conteudo_pagina` (lines 253-262). -/
def passoNavegar (st : EstadoGerenciador) (o : OraculoChamada) (evs : List Evento) :
    (Option String × String) × EstadoGerenciador × List Evento :=
  if o.navegacao.1 then
    ((some o.navegacao.2, "selenium"),
     { st with stats := { st.stats with selenium_fallback := st.stats.selenium_fallback + 1 } },
     evs ++ [.evNavegar])
  else
    ((none, "falha_total_" ++ o.navegacao.2),
     { st with stats := { st.stats with falhas_totais := st.stats.falhas_totais + 1 } },
     evs ++ [.evNavegar])

/-- MÉTODO 2 of `obter_conteudo_pagina`: the selenium fallback
(lines 245-262). -/
def passoSelenium (st : EstadoGerenciador) (o : OraculoChamada) (evs : List Evento) :
    (Option String × String) × EstadoGerenciador × List Evento :=
  if st.selenium_inicializado then
    passoNavegar st o evs
  else
    -- `self.manipulador_selenium = ManipuladorSelenium()`, then
    -- `inicializar_driver()`
    let evs := evs ++ [.evNovaInstanciaSelenium, .evInicializarDriver]
    if o.driverOk then
      passoNavegar { st with selenium_inicializado := true } o evs
    else
      ((none, "selenium_init_falhou"),
       { st with stats := { st.stats with falhas_totais := st.stats.falhas_totais + 1 } },
       evs)

/-- `GerenciadorConexaoHibrida.obter_conteudo_pagina` (lines 225-262):
returns the `(conteudo | None, metodo)` pair, the successor state, and the
trace of side-effect events in execution order. -/
def obter_conteudo_pagina (st : EstadoGerenciador) (o : OraculoChamada) :
    (Option String × String) × EstadoGerenciador × List Evento :=
  -- MÉTODO 1: requests.  `if resposta and resposta.status_code == 200`
  -- (a `requests.Response` is truthy iff its status is < 400).
  match o.requisicao.1 with
  | some (code, body) =>
    if code < 400 ∧ code = 200 then
      ((some body, "requests"),
       { st with stats := { st.stats with requests_sucesso := st.stats.requests_sucesso + 1 } },
       [.evRequisicao])
    else passoSelenium st o [.evRequisicao]
  | none => passoSelenium st o [.evRequisicao]

/-- Run a sequence of `obter_conteudo_pagina` calls, accumulating the
event trace. -/
def executarChamadas (st : EstadoGerenciador) :
    List OraculoChamada → EstadoGerenciador × List Evento
  | [] => (st, [])
  | o :: os =>
    let (_, st', evs) := obter_conteudo_pagina st o
    let (stFinal, evsResto) := executarChamadas st' os
    (stFinal, evs ++ evsResto)

/-- A whole coordinator lifetime: `__init__` (which itself constructs one
`ManipuladorSelenium()` instance, line 211) followed by the given calls. -/
def executarCoordenador (os : List OraculoChamada) : EstadoGerenciador × List Evento :=
  let (st, evs) := executarChamadas estadoInicial os
  (st, Evento.evNovaInstanciaSelenium :: evs)

/-- Count occurrences of one event in a trace. -/
def contarEvento (e : Evento) (evs : List Evento) : Nat :=
  (evs.filter (· = e)).length

/-- Sum of the three usage counters (`sum(self.stats_metodos.values())`). -/
def somaStats (s : StatsMetodos) : Nat :=
  s.requests_sucesso + s.selenium_fallback + s.falhas_totais

/-- Render a ratio `a / total` as the percentage string produced by
`f"{(a / total) * 100:.1f}%"`; `total` is nonzero at every call site.
The source computes in binary floating point and rounds to one decimal;
we model the arithmetic exactly with round half up — `⌊(2000a + total) /
(2 total)⌋` tenths of a percent (ties are not exercised by any claim). -/
def formatarTaxa (a total : Nat) : String :=
  let decimos : Nat := (2000 * a + total) / (2 * total)
  natParaString (decimos / 10) ++ "." ++ natParaString (decimos % 10) ++ "%"

/-- Return value of `GerenciadorConexaoHibrida.obter_estatisticas`
(lines 286-300): when no call was made it returns the raw counter dict
(three keys, no rate fields); otherwise a dict that also carries the three
percentage-rate strings. -/
inductive Estatisticas where
  | semTaxas (stats : StatsMetodos)
  | comTaxas (stats : StatsMetodos) (taxa_requests taxa_selenium taxa_falhas : String)
deriving DecidableEq, Repr

/-- `GerenciadorConexaoHibrida.obter_estatisticas`. -/
def obter_estatisticas (st : EstadoGerenciador) : Estatisticas :=
  let total := somaStats st.stats
  if total = 0 then .semTaxas st.stats
  else
    .comTaxas st.stats
      (formatarTaxa st.stats.requests_sucesso total)
      (formatarTaxa st.stats.selenium_fallback total)
      (formatarTaxa st.stats.falhas_totais total)

/-- The rate fields of a statistics result, when present. -/
def taxas? : Estatisticas → Option (String × String × String)
  | .semTaxas _ => none
  | .comTaxas _ a b c => some (a, b, c)

/-! ## A model of Python `json.loads`

Both adapters decode an embedded payload with `json.loads`.  We model JSON
values and a recursive-descent parser for the grammar `json.loads` accepts
(strict JSON; the `NaN`/`Infinity` extensions are not modelled — no payload
of this repository uses them).  Python distinguishes `int` from `float`;
both are modelled as `ℚ` (the distinction only affects `str()` rendering,
which no claim inspects). -/

/-- A decoded JSON value. -/
inductive Json where
  | null
  | bool (b : Bool)
  | num (q : ℚ)
  | str (s : String)
  | arr (elems : List Json)
  | obj (fields : List (String × Json))

/-- The double-quote character. -/
def caDQ : Char := Char.ofNat 34

/-- The single-quote (apostrophe) character. -/
def caSQ : Char := Char.ofNat 39

/-- The opening-brace character. -/
def caLB : Char := Char.ofNat 123

/-- The closing-brace character. -/
def caRB : Char := Char.ofNat 125

/-- JSON inter-token whitespace (space, tab, newline, carriage return). -/
def isJsonWs (c : Char) : Bool :=
  c = ' ' ∨ c = Char.ofNat 9 ∨ c = Char.ofNat 10 ∨ c = Char.ofNat 13

/-- Drop leading JSON whitespace. -/
def skipWs : List Char → List Char
  | c :: cs => if isJsonWs c then skipWs cs else c :: cs
  | [] => []

/-- Longest leading run of ASCII digits, and the remainder. -/
def takeDigits : List Char → List Char × List Char
  | c :: cs =>
    if c.isDigit then
      let (ds, r) := takeDigits cs
      (c :: ds, r)
    else ([], c :: cs)
  | [] => ([], [])

/-- Numeric value of a digit run. -/
def digitosParaNat (ds : List Char) : Nat :=
  ds.foldl (fun n c => n * 10 + (c.toNat - 48)) 0

/-- Value of one hex digit, if any. -/
def hexVal (c : Char) : Option Nat :=
  if c.isDigit then some (c.toNat - 48)
  else if 97 ≤ c.toNat ∧ c.toNat ≤ 102 then some (c.toNat - 87)
  else if 65 ≤ c.toNat ∧ c.toNat ≤ 70 then some (c.toNat - 55)
  else none

/-- Character denoted by a one-letter escape sequence. -/
def escChar (c : Char) : Option Char :=
  if c = caDQ then some caDQ
  else if c = '\\' then some '\\'
  else if c = '/' then some '/'
  else if c = 'b' then some (Char.ofNat 8)
  else if c = 'f' then some (Char.ofNat 12)
  else if c = 'n' then some (Char.ofNat 10)
  else if c = 'r' then some (Char.ofNat 13)
  else if c = 't' then some (Char.ofNat 9)
  else none

/-- Body of a JSON string after its opening quote: the decoded characters
and the remainder after the closing quote.  Unescaped control characters
are rejected, as in `json.loads`.  Surrogate pairs in `\uXXXX` escapes are
decoded as two separate code points (no claim exercises them). -/
def parseStringBody : List Char → Option (List Char × List Char)
  | [] => none
  | c :: rest =>
    if c = caDQ then some ([], rest)
    else if c = '\\' then
      match rest with
      | [] => none
      | e :: rest2 =>
        if e = 'u' then
          match rest2 with
          | h1 :: h2 :: h3 :: h4 :: rest3 => do
            let n1 ← hexVal h1
            let n2 ← hexVal h2
            let n3 ← hexVal h3
            let n4 ← hexVal h4
            let (s, r) ← parseStringBody rest3
            pure (Char.ofNat (((n1 * 16 + n2) * 16 + n3) * 16 + n4) :: s, r)
          | _ => none
        else do
          let ec ← escChar e
          let (s, r) ← parseStringBody rest2
          pure (ec :: s, r)
    else if c.toNat < 32 then none
    else do
      let (s, r) ← parseStringBody rest
      pure (c :: s, r)

/-- Optional fraction part of a JSON number: its digit run. -/
def parseFracDigitos : List Char → Option (List Char × List Char)
  | '.' :: r =>
    let (fds, r2) := takeDigits r
    if fds.isEmpty then none else some (fds, r2)
  | cs => some ([], cs)

/-- Optional exponent part of a JSON number, as a signed integer. -/
def parseExpoente : List Char → Option (ℤ × List Char)
  | c :: r =>
    if c = 'e' ∨ c = 'E' then
      let (negExp, r1) :=
        match r with
        | '-' :: r2 => (true, r2)
        | '+' :: r2 => (false, r2)
        | _ => (false, r)
      let (eds, r2) := takeDigits r1
      if eds.isEmpty then none
      else
        let e : ℤ := (digitosParaNat eds : ℤ)
        some (if negExp then -e else e, r2)
    else some (0, c :: r)
  | [] => some (0, [])

/-- The rational `± mant · 10 ^ expo`, built with `mkRat` so that it
evaluates by kernel reduction. -/
def valorNumero (neg : Bool) (mant : Nat) (expo : ℤ) : ℚ :=
  let a : Nat := if 0 ≤ expo then mant * 10 ^ expo.toNat else mant
  let d : Nat := if 0 ≤ expo then 1 else 10 ^ (-expo).toNat
  if neg then mkRat (-(a : ℤ)) d else mkRat (a : ℤ) d

/-- A JSON number (leading zeros rejected, as in `json.loads`): decimal
mantissa `ints.fds` and exponent, combined exactly. -/
def parseNumero (cs : List Char) : Option (ℚ × List Char) :=
  let (neg, cs1) :=
    match cs with
    | '-' :: r => (true, r)
    | _ => (false, cs)
  let (ints, cs2) := takeDigits cs1
  match ints with
  | [] => none
  | d :: ds =>
    if d = '0' ∧ ¬ds.isEmpty then none
    else do
      let (fds, cs3) ← parseFracDigitos cs2
      let (expo, cs4) ← parseExpoente cs3
      let mant := digitosParaNat (ints ++ fds)
      pure (valorNumero neg mant (expo - (fds.length : ℤ)), cs4)

/-- Insert a key/value pair as Python dict construction does: an existing
key keeps its position and gets the new value, a new key is appended. -/
def insereCampo : List (String × Json) → String → Json → List (String × Json)
  | [], k, v => [(k, v)]
  | (k0, v0) :: fs, k, v =>
    if k0 = k then (k0, v) :: fs else (k0, v0) :: insereCampo fs k v

/-- Build the member list of a decoded object the way `json.loads` builds a
dict: duplicate keys keep the first position and the last value. -/
def camposDict (ps : List (String × Json)) : List (String × Json) :=
  ps.foldl (fun acc kv => insereCampo acc kv.1 kv.2) []

mutual

/-- One JSON value, fuelled recursive descent.  The fuel decreases on every
nested call; `Json.parse` supplies more fuel than any input can consume. -/
def parseValue : Nat → List Char → Option (Json × List Char)
  | 0, _ => none
  | fuel + 1, cs =>
    match skipWs cs with
    | 't' :: 'r' :: 'u' :: 'e' :: r => some (.bool true, r)
    | 'f' :: 'a' :: 'l' :: 's' :: 'e' :: r => some (.bool false, r)
    | 'n' :: 'u' :: 'l' :: 'l' :: r => some (.null, r)
    | [] => none
    | c :: rest =>
      if c = caDQ then
        (parseStringBody rest).map (fun p => (.str (String.mk p.1), p.2))
      else if c = '[' then
        match skipWs rest with
        | c2 :: r2 =>
          if c2 = ']' then some (.arr [], r2)
          else do
            let (es, r3) ← parseElems fuel (c2 :: r2)
            pure (.arr es, r3)
        | [] => none
      else if c = caLB then
        match skipWs rest with
        | c2 :: r2 =>
          if c2 = caRB then some (.obj [], r2)
          else do
            let (fs, r3) ← parseMembros fuel (c2 :: r2)
            pure (.obj (camposDict fs), r3)
        | [] => none
      else
        (parseNumero (c :: rest)).map (fun p => (.num p.1, p.2))

/-- Comma-separated array elements up to the closing bracket. -/
def parseElems : Nat → List Char → Option (List Json × List Char)
  | 0, _ => none
  | fuel + 1, cs => do
    let (v, r) ← parseValue fuel cs
    match skipWs r with
    | ',' :: r2 => do
      let (vs, r3) ← parseElems fuel r2
      pure (v :: vs, r3)
    | c :: r2 => if c = ']' then pure ([v], r2) else none
    | [] => none

/-- Comma-separated `"key": value` members up to the closing brace. -/
def parseMembros : Nat → List Char → Option (List (String × Json) × List Char)
  | 0, _ => none
  | fuel + 1, cs =>
    match skipWs cs with
    | c :: rest =>
      if c = caDQ then do
        let (ks, r) ← parseStringBody rest
        match skipWs r with
        | ':' :: r2 => do
          let (v, r3) ← parseValue fuel r2
          match skipWs r3 with
          | ',' :: r4 => do
            let (fs, r5) ← parseMembros fuel r4
            pure ((String.mk ks, v) :: fs, r5)
          | c2 :: r4 => if c2 = caRB then pure ([(String.mk ks, v)], r4) else none
          | [] => none
        | _ => none
      else none
    | [] => none

end

/-- `json.loads`: parse one JSON document; anything but trailing whitespace
after the value is an error. -/
def Json.parse (s : String) : Option Json :=
  match parseValue (2 * s.length + 8) s.data with
  | some (v, rest) => if (skipWs rest).isEmpty then some v else none
  | none => none

/-- First field with the given key.  Decoded objects have unique keys
(`camposDict`), so first-match equals Python dict lookup. -/
def lookupField : List (String × Json) → String → Option Json
  | [], _ => none
  | (k0, v) :: fs, k => if k0 = k then some v else lookupField fs k

/-- Python `dict.get(k, default)`; the source only applies it to values the
surrounding control flow has established to be dicts. -/
def Json.getD (j : Json) (k : String) (d : Json) : Json :=
  match j with
  | .obj fs => (lookupField fs k).getD d
  | _ => d

/-- Python `x.get(k, default)` where `x` may not be a dict: `none` models
the `AttributeError` a non-dict receiver raises. -/
def Json.getA (j : Json) (k : String) (d : Json) : Option Json :=
  match j with
  | .obj fs => some ((lookupField fs k).getD d)
  | _ => none

/-- Python truthiness of a decoded JSON value. -/
def Json.falsy : Json → Bool
  | .null => true
  | .bool b => !b
  | .num q => q = 0
  | .str s => s.data.isEmpty
  | .arr xs => xs.isEmpty
  | .obj fs => fs.isEmpty

/-- Python `x > 0` on a decoded JSON value: defined for numbers (bools are
ints in Python); any other type raises `TypeError`, modelled as `none`. -/
def Json.gtZero? : Json → Option Bool
  | .num q => some (decide (0 < q))
  | .bool b => some b
  | _ => none

/-- Python `==` on decoded JSON values, fuelled (the fuel is an upper bound
on the nesting depth; `Json.pyEq` supplies enough).  Python treats bools as
the ints 0/1; dict comparison is key-wise (decoded dicts have unique keys). -/
def pyEqFuel : Nat → Json → Json → Bool
  | 0, _, _ => false
  | _ + 1, .null, .null => true
  | _ + 1, .bool a, .bool b => a = b
  | _ + 1, .bool a, .num q => (if a then (1 : ℚ) else 0) = q
  | _ + 1, .num q, .bool b => q = (if b then (1 : ℚ) else 0)
  | _ + 1, .num a, .num b => a = b
  | _ + 1, .str a, .str b => a = b
  | f + 1, .arr xs, .arr ys =>
    xs.length = ys.length ∧ (xs.zip ys).all fun p => pyEqFuel f p.1 p.2
  | f + 1, .obj xs, .obj ys =>
    xs.length = ys.length ∧ xs.all fun kv =>
      match lookupField ys kv.1 with
      | some v => pyEqFuel f kv.2 v
      | none => false
  | _ + 1, _, _ => false

mutual

/-- Nesting depth of a JSON value (fuel bound for `Json.pyEq`). -/
def Json.profundidade : Json → Nat
  | .arr xs => profundidadeLista xs + 1
  | .obj fs => profundidadeCampos fs + 1
  | _ => 1

/-- Greatest depth in a list of JSON values. -/
def profundidadeLista : List Json → Nat
  | [] => 0
  | j :: js => max j.profundidade (profundidadeLista js)

/-- Greatest depth among the values of a field list. -/
def profundidadeCampos : List (String × Json) → Nat
  | [] => 0
  | kv :: fs => max kv.2.profundidade (profundidadeCampos fs)

end

/-- Python `==` on decoded JSON values. -/
def Json.pyEq (a b : Json) : Bool := pyEqFuel a.profundidade a b

/-- Python `str()` of a decoded JSON value, applied by the adapters to
product/SKU ids.  Scalars are rendered faithfully (float rendering is
approximated through `ℚ`); the container text is a placeholder — no claim
reads the rendering of a container-valued id. -/
def pyStr : Json → String
  | .null => "None"
  | .bool true => "True"
  | .bool false => "False"
  | .num q =>
    if q.den = 1 then intParaString q.num
    else intParaString q.num ++ "/" ++ natParaString q.den
  | .str s => s
  | .arr _ => "[...]"
  | .obj _ => "{...}"

/-! ## Price formatting (`_formatar_preco`, identical in both adapters) -/

/-- The runtime type cases `_formatar_preco` distinguishes: a number
(`isinstance(preco, (int, float))` — Python bools are ints), a string, or
anything else. -/
inductive Preco where
  | num (q : ℚ)
  | str (s : String)
  | outro

/-- View a decoded JSON value through `_formatar_preco`'s `isinstance`
tests. -/
def Preco.ofJson : Json → Preco
  | .num q => .num q
  | .bool b => .num (if b then 1 else 0)
  | .str s => .str s
  | _ => .outro

/-- `f"{preco:.2f}"` for a positive value: fixed two decimals.  The
number of cents is `⌊100·q + 1/2⌋ = ⌊(200·num + den) / (2·den)⌋`.  The
source formats a binary float with round-half-even; we round half up — no
payload or claim exercises a tie at the third decimal. -/
def formatFixed2 (q : ℚ) : String :=
  let cents : Nat := (Int.fdiv (200 * q.num + (q.den : ℤ)) (2 * (q.den : ℤ))).toNat
  natParaString (cents / 100) ++ "." ++
    (if cents % 100 < 10 then "0" else "") ++ natParaString (cents % 100)

/-- `ScraperCobasi._formatar_preco` (lines 220-238) and
`ScraperPetz._formatar_preco` (lines 188-207), which are identical:
positive numbers become `"R$ <2 decimals>"`, nonblank strings are returned
stripped, everything else becomes `"Consultar"`.  Python `str.strip()` is
modelled by `String.trim` (the claims only use ASCII whitespace).  The
`except` arm returning `"N/A"` is unreachable: no branch can raise. -/
def formatar_preco : Preco → String
  | .num q => if 0 < q then "R$ " ++ formatFixed2 q else "Consultar"
  | .str s => if ¬(stripPy s).data.isEmpty then stripPy s else "Consultar"
  | .outro => "Consultar"

/-! ## Normalized records (`Scraper/estruturas_dados.py`) -/

/-- `InfoMedicamento`: the static catalog entry for a search term. -/
structure InfoMedicamento where
  empresa : String
  categoria : String
  animal : String
  porte : String
  eficacia : String

/-- `InfoProduto` (`estruturas_dados.py` lines 21-44).  The dataclass
annotates `produto`/`quantidade` as `str`, but the adapters store whatever
decoded JSON value the payload held, so those fields carry `Json` here;
`preco` always comes out of `_formatar_preco` and is a genuine string. -/
structure InfoProduto where
  categoria : String
  marca : String
  produto : Json
  quantidade : Json
  preco : String
  site : String
  data_coleta : String
  preco_antigo : Option String := none
  desconto : Option String := none
  disponibilidade : Option Json := none
  produto_id : Option String := none
  sku_id : Option String := none
  url : Option Json := none
  metodo : Option String := none

/-! ## Cobasi adapter (`Scrapper/scraper_cobasi.py`)

`datetime.now().strftime("%Y-%m-%d")` is threaded in as the parameter
`hoje`, and the catalog lookup `gerenciador_dados.obter_info_medicamento`
(an external collaborator) as the parameter `info`. -/

namespace Cobasi

/-- One `a[data-testid="product-item-v4"]` card of the DOM tier: the
stripped text of its name/price elements (when found) and its `href`. -/
structure CartaoHtml where
  nome : Option String
  preco : Option String
  href : Option String

/-- A fetched Cobasi results document: the `__NEXT_DATA__` script's
`.string` (none when the tag is absent or has no string) and the DOM
product cards. -/
structure Documento where
  nextData : Option String
  cartoes : List CartaoHtml

/-- SKU loop body of `ScraperCobasi._extrair_do_json` (lines 116-147):
`none` models `continue` — a non-dict SKU (its `.get` raises), an
availability flag other than `"AVAILABLE"`, or a `discountPercent` value
that cannot be compared with `0` (the `f`-string guard raises `TypeError`,
caught by the per-SKU handler). -/
def processar_sku (medicamento metodo_usado hoje : String) (info : InfoMedicamento)
    (nome_produto : Json) (produto_id : String) (sku : Json) : Option InfoProduto :=
  match sku with
  | .obj _ =>
    let quantidade := sku.getD "name" (.str "N/A")
    let preco_sku := sku.getD "price" (.num 0)
    let preco_antigo := sku.getD "oldPrice" (.num 0)
    let disponibilidade := sku.getD "available" (.str "UNKNOWN")
    let desconto_percent := sku.getD "discountPercent" (.num 0)
    -- `if disponibilidade != 'AVAILABLE': continue`
    if ¬disponibilidade.pyEq (.str "AVAILABLE") then none
    else
      match desconto_percent.gtZero? with
      | none => none
      | some temDesconto =>
        some { categoria := info.categoria
               marca := medicamento
               produto := nome_produto
               quantidade := quantidade
               preco := formatar_preco (.ofJson preco_sku)
               preco_antigo :=
                 if preco_antigo.falsy then none
                 else some (formatar_preco (.ofJson preco_antigo))
               desconto := if temDesconto then some (pyStr desconto_percent ++ "%") else none
               disponibilidade := some disponibilidade
               site := "cobasi.com.br"
               produto_id := some produto_id
               sku_id := some (pyStr (sku.getD "sku" (.str "N/A")))
               data_coleta := hoje
               metodo := some ("json_" ++ metodo_usado) }
  | _ => none

/-- Product loop body of `ScraperCobasi._extrair_do_json` (lines 93-151).
A non-dict product raises on `.get` and is skipped by the per-product
handler; iterating a truthy non-list `skus` value yields no record (its
elements are strings or keys whose `.get` raises, or the `for` itself
raises `TypeError` — every such path is caught and contributes nothing). -/
def processar_produto_json (medicamento metodo_usado hoje : String)
    (info : InfoMedicamento) (produto_json : Json) : List InfoProduto :=
  match produto_json with
  | .obj _ =>
    let nome_produto := produto_json.getD "name" (.str "N/A")
    let produto_id := pyStr (produto_json.getD "id" (.str "N/A"))
    let preco_base := produto_json.getD "price" (.num 0)
    let skus := produto_json.getD "skus" (.arr [])
    if skus.falsy then
      [{ categoria := info.categoria
         marca := medicamento
         produto := nome_produto
         quantidade := .str "Tamanho Único"
         preco := formatar_preco (.ofJson preco_base)
         site := "cobasi.com.br"
         data_coleta := hoje
         produto_id := some produto_id
         metodo := some ("json_" ++ metodo_usado) }]
    else
      match skus with
      | .arr ls =>
        ls.filterMap (processar_sku medicamento metodo_usado hoje info nome_produto produto_id)
      | _ => []
  | _ => []

/-- The `dados.get("props", {}).get("pageProps", {}).get("searchResult",
{}).get("products", [])` chain (line 83); `none` models the
`AttributeError` raised when an intermediate value is not a dict. -/
def produtosDe (dados : Json) : Option Json := do
  let p ← dados.getA "props" (.obj [])
  let pp ← p.getA "pageProps" (.obj [])
  let sr ← pp.getA "searchResult" (.obj [])
  sr.getA "products" (.arr [])

/-- `ScraperCobasi._extrair_do_json` (lines 66-156).  Its body is wrapped
in `try/except Exception`, so a parse failure or a raised `.get` returns
the empty list instead of propagating. -/
def extrair_do_json (conteudo_json medicamento metodo_usado hoje : String)
    (info : InfoMedicamento) : List InfoProduto :=
  match Json.parse conteudo_json with
  | none => []
  | some dados =>
    match produtosDe dados with
    | none => []
    | some produtos_json =>
      if produtos_json.falsy then []
      else
        match produtos_json with
        | .arr ls =>
          (ls.map (processar_produto_json medicamento metodo_usado hoje info)).flatten
        | _ => []

/-- Card loop body of `ScraperCobasi._extrair_do_html` (lines 183-213). -/
def processar_cartao (medicamento metodo_usado hoje : String)
    (info : InfoMedicamento) (cartao : CartaoHtml) : InfoProduto :=
  let nome := cartao.nome.getD "N/A"
  let preco := cartao.preco.getD "N/A"
  let url0 := cartao.href.getD "N/A"
  let url :=
    if url0 ≠ "N/A" ∧ ¬(comecaCom url0 "http") then "https://www.cobasi.com.br" ++ url0
    else url0
  { categoria := info.categoria
    marca := medicamento
    produto := .str nome
    quantidade := .str "Tamanho Único"
    preco := preco
    site := "cobasi.com.br"
    url := some (.str url)
    data_coleta := hoje
    metodo := some ("html_" ++ metodo_usado) }

/-- `ScraperCobasi._extrair_do_html` (lines 158-218); on an empty card
list it returns the empty list, which `List.map` already does. -/
def extrair_do_html (doc : Documento) (medicamento metodo_usado hoje : String)
    (info : InfoMedicamento) : List InfoProduto :=
  doc.cartoes.map (processar_cartao medicamento metodo_usado hoje info)

/-- `ScraperCobasi.extrair_produtos_pagina` (lines 34-64): the
structured-payload tier runs when the `__NEXT_DATA__` tag is present with a
nonempty string; its records are returned when nonempty, otherwise the DOM
tier runs.  The `except (json.JSONDecodeError, KeyError)` wrapper never
fires because `_extrair_do_json` already swallows every exception. -/
def extrair_produtos_pagina (doc : Documento) (medicamento metodo_usado hoje : String)
    (info : InfoMedicamento) : List InfoProduto :=
  let viaJson :=
    match doc.nextData with
    | some s =>
      if ¬s.data.isEmpty then extrair_do_json s medicamento metodo_usado hoje info else []
    | none => []
  if ¬viaJson.isEmpty then viaJson
  else extrair_do_html doc medicamento metodo_usado hoje info

end Cobasi

/-! ## Petz adapter (`Scraper/scraper_petz.py`) -/

namespace Petz

/-- Python `detalhes_json.replace("'", '"')`. -/
def substituirAspas (s : String) : String :=
  String.mk (s.data.map fun c => if c = caSQ then caDQ else c)

/-- `ScraperPetz._criar_produto_da_variacao` (lines 134-186): `none`
models the `except` arm returning `None` — a non-dict variation (its
`.get` raises) or a `discountPercentage` value that cannot be compared
with `0`.  Note: the availability flag is stored in the record but never
tested — unavailable variations still produce a record. -/
def criar_produto_da_variacao (medicamento metodo_usado hoje : String)
    (info : InfoMedicamento) (produto_json variacao : Json) : Option InfoProduto :=
  match variacao with
  | .obj _ =>
    let quantidade := variacao.getD "name" (.str "Tamanho Único")
    let preco_original := variacao.getD "price" (.num 0)
    let preco_promocional := variacao.getD "promotionalPrice" preco_original
    let desconto_percentual := variacao.getD "discountPercentage" (.num 0)
    let disponibilidade := variacao.getD "availability" (.str "UNKNOWN")
    let sku := variacao.getD "sku" (.str "N/A")
    let nome_produto := produto_json.getD "name" (.str "N/A")
    let produto_id := pyStr (produto_json.getD "id" (.str "N/A"))
    let url_produto := produto_json.getD "url" (.str "N/A")
    match desconto_percentual.gtZero? with
    | none => none
    | some temDesconto =>
      some { categoria := info.categoria
             marca := medicamento
             produto := nome_produto
             quantidade := quantidade
             preco := formatar_preco (.ofJson preco_promocional)
             preco_antigo :=
               if preco_original.pyEq preco_promocional then none
               else some (formatar_preco (.ofJson preco_original))
             desconto := if temDesconto then some (pyStr desconto_percentual ++ "%") else none
             disponibilidade := some disponibilidade
             site := "petz.com.br"
             produto_id := some produto_id
             sku_id := some (pyStr sku)
             url := some url_produto
             data_coleta := hoje
             metodo := some ("json_" ++ metodo_usado) }
  | _ => none

/-- The default variation dict built when the product has no `variations`
list (`scraper_petz.py` lines 102-111). -/
def variacaoPadrao (produto_json : Json) : Json :=
  .obj [("name", produto_json.getD "variationAbreviation" (.str "Tamanho Único")),
        ("price", produto_json.getD "price" (.num 0)),
        ("promotionalPrice",
          produto_json.getD "promotional_price" (produto_json.getD "price" (.num 0))),
        ("discountPercentage", produto_json.getD "discountPercentage" (.num 0)),
        ("sku", produto_json.getD "sku" (.str "N/A")),
        ("availability", produto_json.getD "availability" (.str "UNKNOWN")),
        ("id", produto_json.getD "id" (.str "N/A"))]

/-- Variation loop of `_processar_json_produto` (lines 113-125): failed
variations are skipped, the rest append one record each. -/
def processar_variacoes (medicamento metodo_usado hoje : String) (info : InfoMedicamento)
    (produto_json : Json) (vs : List Json) : List InfoProduto :=
  vs.filterMap (criar_produto_da_variacao medicamento metodo_usado hoje info produto_json)

/-- `ScraperPetz._processar_json_produto` (lines 76-132): strip the
payload, replace every single quote by a double quote, parse; a decode
failure (or a non-dict result, whose `.get` raises) is caught and yields
no records.  A falsy `variations` value triggers the default variation;
iterating a truthy non-list yields no records (same exception analysis as
for Cobasi's `skus`). -/
def processar_json_produto (detalhes_json medicamento metodo_usado hoje : String)
    (info : InfoMedicamento) : List InfoProduto :=
  let ajustado := substituirAspas (stripPy detalhes_json)
  match Json.parse ajustado with
  | none => []
  | some produto_json =>
    match produto_json with
    | .obj _ =>
      let variacoes := produto_json.getD "variations" (.arr [])
      if variacoes.falsy then
        processar_variacoes medicamento metodo_usado hoje info produto_json
          [variacaoPadrao produto_json]
      else
        match variacoes with
        | .arr vs => processar_variacoes medicamento metodo_usado hoje info produto_json vs
        | _ => []
    | _ => []

/-- One `product-card` element: its `product-details` attribute, if any. -/
structure CartaoPetz where
  productDetails : Option String

/-- `ScraperPetz.extrair_produtos_pagina` (lines 34-74): cards with a
falsy `product-details` attribute are skipped, the others contribute the
records of `_processar_json_produto`. -/
def extrair_produtos_pagina (cartoes : List CartaoPetz)
    (medicamento metodo_usado hoje : String) (info : InfoMedicamento) : List InfoProduto :=
  (cartoes.map fun c =>
    match c.productDetails with
    | none => []
    | some d =>
      if d.data.isEmpty then []
      else processar_json_produto d medicamento metodo_usado hoje info).flatten

end Petz

/-! ## Petlove adapter and the base-class test-mode cap
(`Scraper/scraper_petlove.py`, `Scraper/scraper_base.py`) -/

namespace Petlove

/-- One `div.list__item` card, as seen by `_extrair_dados_basicos`
(lines 99-146): stripped texts of the name/price/quantity elements when
found, the `href` of the `a[itemprop=url]` element when present (`get`
default `""`), and whether a `+opções` button exists. -/
structure CartaoPetlove where
  nome : Option String
  preco : Option String
  quantidade : Option String
  href : Option (Option String)
  temBotaoOpcoes : Bool

/-- The `dados` dict `_extrair_dados_basicos` returns (its `except` arm
returning `{}` fires only on library-internal failures, which have no
data-level trigger and are not modelled). -/
structure DadosBasicos where
  nome : String
  preco_basico : String
  quantidade_basica : String
  link_produto : Option String
  tem_variacoes : Bool

/-- `ScraperPetlove._extrair_dados_basicos` (lines 99-146). -/
def extrair_dados_basicos (c : CartaoPetlove) : DadosBasicos :=
  { nome := c.nome.getD "N/A"
    preco_basico := c.preco.getD "Consultar"
    quantidade_basica := c.quantidade.getD "Tamanho Único"
    link_produto :=
      match c.href with
      | none => none
      | some h =>
        let link := h.getD ""
        some (if ¬link.data.isEmpty ∧ ¬(comecaCom link "http")
              then "https://www.petlove.com.br" ++ link else link)
    tem_variacoes := c.temBotaoOpcoes }

/-- One `{"quantidade": ..., "preco": ...}` dict produced by
`_buscar_variacoes_produto`. -/
structure Variacao where
  quantidade : String
  preco : String

/-- The `if dados_basicos.get('link_produto'):` guard around the
secondary fetch `_buscar_variacoes_produto` (lines 66-69): a truthy link
is fetched — recorded in the second component — and yields whatever
variations the detail page exposes (`variacoesDe`); an absent or empty
link is not fetched and yields none.  (The `not url_produto or
url_produto == "N/A"` guard inside `_buscar_variacoes_produto` is
subsumed: processed links are never `"N/A"`, and empty ones never reach
it.) -/
def buscarVariacoes (variacoesDe : String → List Variacao) :
    Option String → List Variacao × List String
  | some link => if ¬link.data.isEmpty then (variacoesDe link, [link]) else ([], [])
  | none => ([], [])

/-- Card loop body of `ScraperPetlove.extrair_produtos_pagina`
(lines 58-95).  `variacoesDe url` is the outcome of the secondary fetch
`_buscar_variacoes_produto(url)` (an `obter_soup_pagina` call plus DOM
reads); the returned list of strings records, in order, the URLs that were
secondarily fetched. -/
def processar_cartao (medicamento metodo_usado hoje : String) (info : InfoMedicamento)
    (variacoesDe : String → List Variacao) (c : CartaoPetlove) :
    List InfoProduto × List String :=
  let dados := extrair_dados_basicos c
  let (variacoes, buscas) := buscarVariacoes variacoesDe dados.link_produto
  -- `if not variacoes:` — fall back to the single basic variation
  let variacoes :=
    if variacoes.isEmpty then
      [{ quantidade := dados.quantidade_basica, preco := dados.preco_basico }]
    else variacoes
  (variacoes.map fun v =>
    { categoria := info.categoria
      marca := medicamento
      produto := .str dados.nome
      quantidade := .str v.quantidade
      preco := v.preco
      url := some (.str ((dados.link_produto).getD "N/A"))
      site := "petlove.com.br"
      data_coleta := hoje
      metodo := some ("html_" ++ metodo_usado) }, buscas)

/-- `ScraperPetlove.extrair_produtos_pagina` (lines 34-97), also returning
the list of secondarily fetched URLs: the card loop appends each card's
records and fetches in order. -/
def extrair_produtos_pagina (cartoes : List CartaoPetlove)
    (medicamento metodo_usado hoje : String) (info : InfoMedicamento)
    (variacoesDe : String → List Variacao) : List InfoProduto × List String :=
  match cartoes with
  | [] => ([], [])
  | c :: resto =>
    let (ps, bs) := processar_cartao medicamento metodo_usado hoje info variacoesDe c
    let (ps2, bs2) := extrair_produtos_pagina resto medicamento metodo_usado hoje info variacoesDe
    (ps ++ ps2, bs ++ bs2)

/-- `ScraperBase.buscar_medicamento` (`scraper_base.py` lines 92-142),
specialised to the Petlove adapter: fetch the results page (`pagina` is
`none` when `obter_soup_pagina` returned no soup), extract, then apply the
test-mode cap `produtos = produtos[:1]` (lines 120-123).  Statistics
bookkeeping and the inter-search pause have no effect on the returned data
and are not modelled. -/
def buscar_medicamento (modo_teste : Bool) (pagina : Option (List CartaoPetlove))
    (medicamento metodo_usado hoje : String) (info : InfoMedicamento)
    (variacoesDe : String → List Variacao) : List InfoProduto × List String :=
  match pagina with
  | none => ([], [])
  | some cartoes =>
    let (produtos, buscas) :=
      extrair_produtos_pagina cartoes medicamento metodo_usado hoje info variacoesDe
    let produtos :=
      if modo_teste ∧ ¬produtos.isEmpty then produtos.take 1 else produtos
    (produtos, buscas)

end Petlove

/-! ## Claim-side definitions

These follow the wording of the specification (not the source); the
theorems below compare the embedded source functions against them. -/

/-- Spec side: the fast strategy failed — `fetchPage` must escalate. -/
def requisicaoFalhou (o : OraculoChamada) : Prop :=
  match o.requisicao.1 with
  | none => True
  | some (code, _) => code ≠ 200

/-- Spec side: the classified reason `fazer_requisicao` reports for a
non-200 HTTP status. -/
def classificarStatus (c : Nat) : String :=
  if c = 403 then "bloqueado_403"
  else if c = 429 then "muitas_requisicoes"
  else "status_" ++ natParaString c

/-- Spec side: a Cobasi SKU yields a record exactly when it is a dict
whose availability flag equals `"AVAILABLE"` (and whose `discountPercent`
can be compared with `0`, so that record construction succeeds). -/
def skuEmitidoCobasi (sku : Json) : Bool :=
  match sku with
  | .obj _ =>
    (sku.getD "available" (.str "UNKNOWN")).pyEq (.str "AVAILABLE") &&
      ((sku.getD "discountPercent" (.num 0)).gtZero?).isSome
  | _ => false

/-- Spec side: the record an emitted Cobasi SKU is expected to carry —
the SKU's own label (`name`) and formatted price. -/
def registroSkuCobasi (medicamento metodo_usado hoje : String) (info : InfoMedicamento)
    (nome_produto : Json) (produto_id : String) (sku : Json) : InfoProduto :=
  { categoria := info.categoria
    marca := medicamento
    produto := nome_produto
    quantidade := sku.getD "name" (.str "N/A")
    preco := formatar_preco (.ofJson (sku.getD "price" (.num 0)))
    preco_antigo :=
      if (sku.getD "oldPrice" (.num 0)).falsy then none
      else some (formatar_preco (.ofJson (sku.getD "oldPrice" (.num 0))))
    desconto :=
      if ((sku.getD "discountPercent" (.num 0)).gtZero?).getD false
      then some (pyStr (sku.getD "discountPercent" (.num 0)) ++ "%") else none
    disponibilidade := some (sku.getD "available" (.str "UNKNOWN"))
    site := "cobasi.com.br"
    produto_id := some produto_id
    sku_id := some (pyStr (sku.getD "sku" (.str "N/A")))
    data_coleta := hoje
    metodo := some ("json_" ++ metodo_usado) }

/-- Spec side: a Petz variation dict whose record construction cannot
fail (it is a dict and its `discountPercentage` compares with `0`). -/
def variacaoBemFormadaPetz (v : Json) : Bool :=
  match v with
  | .obj _ => ((v.getD "discountPercentage" (.num 0)).gtZero?).isSome
  | _ => false

/-- Spec side: the record a well-formed Petz variation produces —
regardless of its availability flag, which is only recorded. -/
def registroVariacaoPetz (medicamento metodo_usado hoje : String) (info : InfoMedicamento)
    (produto_json v : Json) : InfoProduto :=
  { categoria := info.categoria
    marca := medicamento
    produto := produto_json.getD "name" (.str "N/A")
    quantidade := v.getD "name" (.str "Tamanho Único")
    preco := formatar_preco (.ofJson (v.getD "promotionalPrice" (v.getD "price" (.num 0))))
    preco_antigo :=
      if (v.getD "price" (.num 0)).pyEq (v.getD "promotionalPrice" (v.getD "price" (.num 0)))
      then none
      else some (formatar_preco (.ofJson (v.getD "price" (.num 0))))
    desconto :=
      if ((v.getD "discountPercentage" (.num 0)).gtZero?).getD false
      then some (pyStr (v.getD "discountPercentage" (.num 0)) ++ "%") else none
    disponibilidade := some (v.getD "availability" (.str "UNKNOWN"))
    site := "petz.com.br"
    produto_id := some (pyStr (produto_json.getD "id" (.str "N/A")))
    sku_id := some (pyStr (v.getD "sku" (.str "N/A")))
    url := some (produto_json.getD "url" (.str "N/A"))
    data_coleta := hoje
    metodo := some ("json_" ++ metodo_usado) }

/-- Spec side: a Petlove card whose processed product link is truthy, so
that the adapter performs a secondary detail-page fetch for it. -/
def temLinkVerdadeiro (c : Petlove.CartaoPetlove) : Bool :=
  match (Petlove.extrair_dados_basicos c).link_produto with
  | some l => ¬l.data.isEmpty
  | none => false

/-! ## Concrete inputs used by counterexamples and witnesses -/

/-- A catalog entry, as `obter_info_medicamento` would return it. -/
def infoExemplo : InfoMedicamento :=
  { empresa := "MSD", categoria := "antipulgas", animal := "caes",
    porte := "todos", eficacia := "12 semanas" }

/-- A Petz `product-details` payload: one product with three variations
flagged `AVAILABLE` and one flagged `UNAVAILABLE`. -/
def exemploPetzTresUm : String :=
  "\x7b\"name\":\"Bravecto\",\"id\":7,\"url\":\"/p\",\"variations\":[" ++
  "\x7b\"name\":\"v1\",\"price\":10.5,\"availability\":\"AVAILABLE\"\x7d," ++
  "\x7b\"name\":\"v2\",\"price\":20,\"availability\":\"AVAILABLE\"\x7d," ++
  "\x7b\"name\":\"v3\",\"price\":30,\"availability\":\"AVAILABLE\"\x7d," ++
  "\x7b\"name\":\"v4\",\"price\":40,\"availability\":\"UNAVAILABLE\"\x7d]\x7d"

/-- The same four variations as decoded SKU-style dicts for Cobasi, with
`available` in place of `availability`. -/
def exemploSkusCobasi : List Json :=
  [.obj [("name", .str "v1"), ("price", .num (21/2)), ("available", .str "AVAILABLE")],
   .obj [("name", .str "v2"), ("price", .num 20), ("available", .str "AVAILABLE")],
   .obj [("name", .str "v3"), ("price", .num 30), ("available", .str "AVAILABLE")],
   .obj [("name", .str "v4"), ("price", .num 40), ("available", .str "UNAVAILABLE")]]

/-- A valid JSON payload holding a single quote inside a string value
(`{"a":["','"]}`) whose quote-mangled form `{"a":["",""]}` is still valid
JSON. -/
def exemploAspasValido : String :=
  "\x7b\"a\":[\"\x27,\x27\"]\x7d"

/-- A typical payload holding an apostrophe inside a string value
(`{"name":"Dog's Care","price":5}`); its quote-mangled form is invalid. -/
def exemploDogCare : String :=
  "\x7b\"name\":\"Dog\x27s Care\",\"price\":5\x7d"

/-- A syntactically invalid `__NEXT_DATA__` payload. -/
def exemploJsonInvalido : String := "\x7b\"props\": "

/-- A concrete Cobasi DOM card. -/
def exemploCartaoHtml : Cobasi.CartaoHtml :=
  { nome := some "Produto X", preco := some "R$ 12,90", href := some "/produto-x" }

/-- A fetch call whose fast strategy is blocked (HTTP 403) and whose
browser strategy works. -/
def oFalhaRapida : OraculoChamada :=
  { requisicao := (none, "bloqueado_403"), driverOk := true, navegacao := (true, "<html>") }

/-- A fetch call whose fast strategy is blocked and whose driver cannot
start. -/
def oDriverRuim : OraculoChamada :=
  { requisicao := (none, "bloqueado_403"), driverOk := false, navegacao := (true, "<html>") }

/-- A fetch call whose fast strategy succeeds with HTTP 200. -/
def oSucesso200 : OraculoChamada :=
  { requisicao := (some (200, "ok"), "sucesso"), driverOk := true, navegacao := (true, "<html>") }

/-- A Petlove results card with a product link. -/
def cartaoPetlove (n : Nat) : Petlove.CartaoPetlove :=
  { nome := some ("Produto " ++ natParaString n), preco := some "R$ 50,00"
    quantidade := some "1un", href := some (some ("/prod" ++ natParaString n))
    temBotaoOpcoes := true }

/-- A results page with five matching Petlove cards. -/
def paginaCincoCartoes : List Petlove.CartaoPetlove :=
  [cartaoPetlove 1, cartaoPetlove 2, cartaoPetlove 3, cartaoPetlove 4, cartaoPetlove 5]

/-- A secondary-fetch outcome: every detail page exposes two variants. -/
def duasVariacoesPorPagina (_url : String) : List Petlove.Variacao :=
  [{ quantidade := "P", preco := "R$ 40,00" }, { quantidade := "G", preco := "R$ 60,00" }]

/-! # Theorems -/

/-- C6: `_formatar_preco` renders every strictly positive number as the
fixed two-decimal currency string — `19.5` (the rational `39/2`) becomes
`"R$ 19.50"`; it returns every nonblank string stripped, so the
already-formatted `"R$ 19.50"` comes back unchanged (idempotence); and it
maps every zero, negative, or missing value to the sentinel `"Consultar"`,
never to a currency string. -/
theorem c6_formatar_preco :
    (∀ q : ℚ, 0 < q → formatar_preco (.num q) = "R$ " ++ formatFixed2 q) ∧
    formatar_preco (.num (mkRat 39 2)) = "R$ 19.50" ∧
    (∀ s : String, ¬(stripPy s).data.isEmpty = true → formatar_preco (.str s) = stripPy s) ∧
    formatar_preco (.str "R$ 19.50") = "R$ 19.50" ∧
    (∀ q : ℚ, q ≤ 0 → formatar_preco (.num q) = "Consultar") ∧
    formatar_preco (.num 0) = "Consultar" ∧
    formatar_preco (.num (-5)) = "Consultar" ∧
    formatar_preco .outro = "Consultar" := by
  refine ⟨?_, by decide, ?_, by decide, ?_, by decide, by decide, rfl⟩
  · intro q hq
    simp only [formatar_preco]
    rw [if_pos hq]
  · intro s hs
    simp only [formatar_preco]
    rw [if_pos hs]
  · intro q hq
    simp only [formatar_preco]
    rw [if_neg (not_lt.mpr hq)]

/-- Witness for C6 at concrete inputs: `19.5`, a padded string, and `-5`. -/
theorem c6_formatar_preco_witness :
    formatar_preco (.num (mkRat 39 2)) = "R$ " ++ formatFixed2 (mkRat 39 2) ∧
    formatar_preco (.str " R$ 19.50 ") = stripPy " R$ 19.50 " ∧
    formatar_preco (.num (-5)) = "Consultar" :=
  ⟨c6_formatar_preco.1 (mkRat 39 2) (by decide),
   c6_formatar_preco.2.2.1 " R$ 19.50 " (by decide),
   c6_formatar_preco.2.2.2.2.1 (-5) (by decide)⟩

/-- C5 (counterexample): called before any fetch, `obter_estatisticas`
returns the raw counter dict with no rate fields at all — the three
claimed "0%" rate fields are absent (`fechar_conexoes` reads them with
`.get(..., '0%')` precisely because of this). -/
theorem c5_taxas_ausentes_contraexemplo :
    taxas? (obter_estatisticas estadoInicial) = none := rfl

/-- C5 (amended): before any fetch, `obter_estatisticas` returns the
all-zero counters and omits the three rate fields entirely; no division
by zero occurs (the `total = 0` branch returns before any rate is
computed). -/
theorem c5_estatisticas_zero :
    obter_estatisticas estadoInicial =
      .semTaxas { requests_sucesso := 0, selenium_fallback := 0, falhas_totais := 0 } := rfl

/-- C3 (counterexample): with the default two attempts, an HTTP 429
response ends the call immediately on the first attempt — no cooldown
retry — and so does any other non-200 status (here 500); the third
component records that only one of the two allowed GET attempts was
issued. -/
theorem c3_nao_retenta_contraexemplo :
    fazer_requisicao (fun _ => .response 429 "") = (none, "muitas_requisicoes", 1) ∧
    fazer_requisicao (fun _ => .response 500 "erro") = (none, "status_500", 1) :=
  ⟨rfl, by decide⟩

/-- C3 (amended): any HTTP response with a non-200 status terminates the
call immediately on that attempt — 403 as "bloqueado_403", 429 as
"muitas_requisicoes" (no cooldown sleep, no retry), any other status as
"status_<code>" — consuming exactly one GET; only a timeout continues to
the next attempt while attempts remain, and the failure reason returned
is the one classified on the terminating attempt, not after exhaustion. -/
theorem c3_status_nao_200 :
    (∀ (oracle : Nat → HttpAttempt) (restantes tentativa c : Nat) (body : String),
       oracle tentativa = .response c body → c ≠ 200 →
       fazer_requisicao_de oracle (restantes + 1) tentativa =
         (none, classificarStatus c, 1)) ∧
    (∀ (oracle : Nat → HttpAttempt) (restantes tentativa : Nat),
       oracle tentativa = .timeoutExc →
       fazer_requisicao_de oracle (restantes + 2) tentativa =
         ((fazer_requisicao_de oracle (restantes + 1) (tentativa + 1)).1,
          (fazer_requisicao_de oracle (restantes + 1) (tentativa + 1)).2.1,
          (fazer_requisicao_de oracle (restantes + 1) (tentativa + 1)).2.2 + 1)) := by
  constructor
  · intro oracle restantes tentativa c body hc h200
    simp only [fazer_requisicao_de, hc, classificarStatus]
    by_cases h403 : c = 403
    · simp [h403]
    · by_cases h429 : c = 429
      · simp [h403, h429]
      · simp [h403, h429, h200]
  · intro oracle restantes tentativa ht
    simp only [fazer_requisicao_de, ht]
    simp

/-- Witness for C3 at concrete inputs: a 429 on the first attempt of two,
and a timeout followed by a 200. -/
theorem c3_status_nao_200_witness :
    fazer_requisicao_de (fun _ => .response 429 "") 2 0 = (none, classificarStatus 429, 1) ∧
    fazer_requisicao_de (fun i => if i = 0 then .timeoutExc else .response 200 "ok") 3 0 =
      ((fazer_requisicao_de (fun i => if i = 0 then .timeoutExc else .response 200 "ok") 2 1).1,
       (fazer_requisicao_de (fun i => if i = 0 then .timeoutExc else .response 200 "ok") 2 1).2.1,
       (fazer_requisicao_de (fun i => if i = 0 then .timeoutExc else .response 200 "ok") 2 1).2.2 + 1) :=
  ⟨c3_status_nao_200.1 (fun _ => .response 429 "") 1 0 429 "" rfl (by decide),
   c3_status_nao_200.2 (fun i => if i = 0 then .timeoutExc else .response 200 "ok") 1 0 rfl⟩

/-- C7: Cobasi extraction of a document whose `__NEXT_DATA__` payload is
syntactically invalid JSON returns exactly the records of the same
document with the payload absent — in both cases only the DOM tier
contributes — and the parse failure does not escape to the caller (the
embedded extraction is total). -/
theorem c7_fallback_dom (s : String) (hs : Json.parse s = none)
    (cartoes : List Cobasi.CartaoHtml) (medicamento metodo_usado hoje : String)
    (info : InfoMedicamento) :
    Cobasi.extrair_produtos_pagina ⟨some s, cartoes⟩ medicamento metodo_usado hoje info =
      Cobasi.extrair_produtos_pagina ⟨none, cartoes⟩ medicamento metodo_usado hoje info := by
  simp [Cobasi.extrair_produtos_pagina, Cobasi.extrair_do_json, Cobasi.extrair_do_html, hs]

/-- Witness for C7: a concrete truncated payload and one DOM card. -/
theorem c7_fallback_dom_witness :
    Json.parse exemploJsonInvalido = none ∧
    Cobasi.extrair_produtos_pagina ⟨some exemploJsonInvalido, [exemploCartaoHtml]⟩
        "Bravecto" "requests" "2026-10-12" infoExemplo =
      Cobasi.extrair_produtos_pagina ⟨none, [exemploCartaoHtml]⟩
        "Bravecto" "requests" "2026-10-12" infoExemplo :=
  ⟨rfl, c7_fallback_dom exemploJsonInvalido rfl [exemploCartaoHtml]
    "Bravecto" "requests" "2026-10-12" infoExemplo⟩

/-- C10 (counterexample): the payload `{"a":["','"]}` is valid JSON with a
single quote inside a string value, yet its quote-mangled form
`{"a":["",""]}` is still valid JSON, so the card contributes one record —
not the zero records the claim demands for every such payload. -/
theorem c10_aspas_contraexemplo :
    Json.parse exemploAspasValido =
      some (.obj [("a", .arr [.str (String.mk [caSQ, ',', caSQ])])]) ∧
    Json.parse (Petz.substituirAspas (stripPy exemploAspasValido)) =
      some (.obj [("a", .arr [.str "", .str ""])]) ∧
    (Petz.processar_json_produto exemploAspasValido "Bravecto" "requests" "2026-10-12"
        infoExemplo).length = 1 :=
  ⟨rfl, rfl, by decide⟩

/-- C10 (amended): the Petz adapter always replaces every single quote by
a double quote before parsing; whenever the mangled text is not valid
JSON — as for typical payloads with an apostrophe inside a string value,
e.g. `{"name":"Dog's Care","price":5}` — the card silently contributes
zero records; payloads without single quotes are left unchanged by the
replacement.  (Some payloads with single quotes remain parseable after
mangling and still contribute records, per the counterexample.) -/
theorem c10_aspas_quebram_payload :
    (∀ (s medicamento metodo_usado hoje : String) (info : InfoMedicamento),
       Json.parse (Petz.substituirAspas (stripPy s)) = none →
       Petz.processar_json_produto s medicamento metodo_usado hoje info = []) ∧
    (∀ s : String, (∀ c ∈ s.data, c ≠ caSQ) → Petz.substituirAspas s = s) ∧
    (Json.parse exemploDogCare).isSome = true ∧
    Json.parse (Petz.substituirAspas (stripPy exemploDogCare)) = none ∧
    (∀ (medicamento metodo_usado hoje : String) (info : InfoMedicamento),
       Petz.processar_json_produto exemploDogCare medicamento metodo_usado hoje info = []) := by
  refine ⟨?_, ?_, by decide, rfl, fun _ _ _ _ => rfl⟩
  · intro s medicamento metodo_usado hoje info h
    simp only [Petz.processar_json_produto, h]
  · intro s h
    show String.mk (s.data.map fun c => if c = caSQ then caDQ else c) = s
    have hmap : (s.data.map fun c => if c = caSQ then caDQ else c) = s.data := by
      calc (s.data.map fun c => if c = caSQ then caDQ else c)
          = s.data.map id := List.map_congr_left fun c hc => by simp [h c hc]
        _ = s.data := List.map_id s.data
    rw [hmap]

/-- Witness for C10: the Dog's Care payload yields no records, and a
quote-free payload is untouched by the replacement. -/
theorem c10_aspas_quebram_payload_witness :
    Petz.processar_json_produto exemploDogCare "Bravecto" "requests" "2026-10-12"
      infoExemplo = [] ∧
    Petz.substituirAspas "abc" = "abc" :=
  ⟨c10_aspas_quebram_payload.1 exemploDogCare "Bravecto" "requests" "2026-10-12"
      infoExemplo rfl,
   c10_aspas_quebram_payload.2.1 "abc" (by decide)⟩

/-- Pointwise behaviour of the Cobasi SKU loop body: it emits the
spec-side record exactly for the SKUs `skuEmitidoCobasi` keeps. -/
theorem processar_sku_caracterizado (medicamento metodo_usado hoje : String)
    (info : InfoMedicamento) (nome_produto : Json) (produto_id : String) (sku : Json) :
    Cobasi.processar_sku medicamento metodo_usado hoje info nome_produto produto_id sku =
      if skuEmitidoCobasi sku then
        some (registroSkuCobasi medicamento metodo_usado hoje info nome_produto produto_id sku)
      else none := by
  cases sku with
  | obj fs =>
    simp only [Cobasi.processar_sku, skuEmitidoCobasi, registroSkuCobasi]
    by_cases hav : (Json.getD (.obj fs) "available" (.str "UNKNOWN")).pyEq (.str "AVAILABLE") = true
    · cases hgt : (Json.getD (.obj fs) "discountPercent" (.num 0)).gtZero? with
      | none => simp [hav, hgt]
      | some gt => simp [hav, hgt]
    · simp [hav]
  | null => rfl
  | bool b => rfl
  | num q => rfl
  | str s => rfl
  | arr xs => rfl

/-- List form of the previous lemma: the SKU loop is exactly
filter-by-availability then map-to-record. -/
theorem filterMap_processar_sku (medicamento metodo_usado hoje : String)
    (info : InfoMedicamento) (nome_produto : Json) (produto_id : String) (ls : List Json) :
    ls.filterMap (Cobasi.processar_sku medicamento metodo_usado hoje info nome_produto produto_id) =
      (ls.filter skuEmitidoCobasi).map
        (registroSkuCobasi medicamento metodo_usado hoje info nome_produto produto_id) := by
  induction ls with
  | nil => rfl
  | cons sku resto ih =>
    rw [List.filterMap_cons, List.filter_cons, processar_sku_caracterizado]
    by_cases h : skuEmitidoCobasi sku = true
    · simp [h, ih]
    · simp [h, ih]

/-- Pointwise behaviour of the Petz variation loop body: a well-formed
variation always yields the spec-side record, availability untested. -/
theorem criar_produto_caracterizado (medicamento metodo_usado hoje : String)
    (info : InfoMedicamento) (produto_json v : Json) :
    Petz.criar_produto_da_variacao medicamento metodo_usado hoje info produto_json v =
      if variacaoBemFormadaPetz v then
        some (registroVariacaoPetz medicamento metodo_usado hoje info produto_json v)
      else none := by
  cases v with
  | obj fs =>
    simp only [Petz.criar_produto_da_variacao, variacaoBemFormadaPetz, registroVariacaoPetz]
    cases hgt : (Json.getD (.obj fs) "discountPercentage" (.num 0)).gtZero? with
    | none => simp [hgt]
    | some gt => simp [hgt]
  | null => rfl
  | bool b => rfl
  | num q => rfl
  | str s => rfl
  | arr xs => rfl

/-- C1 (counterexample): a Petz structured payload whose product has three
variations flagged AVAILABLE and one flagged UNAVAILABLE yields four
records, not the three the claim requires — the Petz adapter emits a
record for the unavailable variation too, carrying its flag. -/
theorem c1_petz_sem_filtro_contraexemplo :
    (Petz.processar_json_produto exemploPetzTresUm "Bravecto" "requests" "2026-10-12"
        infoExemplo).length = 4 ∧
    ((Petz.processar_json_produto exemploPetzTresUm "Bravecto" "requests" "2026-10-12"
        infoExemplo)[3]?).map (·.disponibilidade) = some (some (.str "UNAVAILABLE")) :=
  ⟨by decide, rfl⟩

/-- C1 (amended): the Cobasi adapter emits exactly one record per SKU
whose availability flag equals "AVAILABLE" (and whose `discountPercent`
is comparable with 0), zero records for every other SKU, each record
carrying that SKU's own label and formatted price — its SKU loop equals
filter-then-map, and the 3-available/1-unavailable example yields exactly
3 records; the Petz adapter instead emits one record per well-formed
variation regardless of the availability flag, which is recorded. -/
theorem c1_fanout_variantes :
    (∀ (medicamento metodo_usado hoje : String) (info : InfoMedicamento)
       (nome_produto : Json) (produto_id : String) (ls : List Json),
       ls.filterMap
           (Cobasi.processar_sku medicamento metodo_usado hoje info nome_produto produto_id) =
         (ls.filter skuEmitidoCobasi).map
           (registroSkuCobasi medicamento metodo_usado hoje info nome_produto produto_id)) ∧
    ((exemploSkusCobasi.filterMap
        (Cobasi.processar_sku "Bravecto" "requests" "2026-10-12" infoExemplo (.str "P") "1")).length
      = 3) ∧
    (∀ (medicamento metodo_usado hoje : String) (info : InfoMedicamento)
       (produto_json : Json) (vs : List Json),
       Petz.processar_variacoes medicamento metodo_usado hoje info produto_json vs =
         (vs.filter variacaoBemFormadaPetz).map
           (registroVariacaoPetz medicamento metodo_usado hoje info produto_json)) := by
  refine ⟨filterMap_processar_sku, by decide, ?_⟩
  intro medicamento metodo_usado hoje info produto_json vs
  unfold Petz.processar_variacoes
  induction vs with
  | nil => rfl
  | cons v resto ih =>
    rw [List.filterMap_cons, List.filter_cons, criar_produto_caracterizado]
    by_cases h : variacaoBemFormadaPetz v = true
    · simp [h, ih]
    · simp [h, ih]

/-- Event counting distributes over trace concatenation. -/
theorem contarEvento_append (e : Evento) (a b : List Evento) :
    contarEvento e (a ++ b) = contarEvento e a + contarEvento e b := by
  simp [contarEvento, List.filter_append]

/-- One fetch call adds exactly one to the sum of the three counters, and
never decreases any of them. -/
theorem somaStats_obter (st : EstadoGerenciador) (o : OraculoChamada) :
    somaStats (obter_conteudo_pagina st o).2.1.stats = somaStats st.stats + 1 ∧
    st.stats.requests_sucesso ≤ (obter_conteudo_pagina st o).2.1.stats.requests_sucesso ∧
    st.stats.selenium_fallback ≤ (obter_conteudo_pagina st o).2.1.stats.selenium_fallback ∧
    st.stats.falhas_totais ≤ (obter_conteudo_pagina st o).2.1.stats.falhas_totais := by
  obtain ⟨⟨resp, motivo⟩, dok, nav⟩ := o
  cases resp with
  | none =>
    cases hsi : st.selenium_inicializado <;> cases hdok : dok <;> cases hnav : nav.1 <;>
      simp [obter_conteudo_pagina, passoSelenium, passoNavegar, somaStats, hsi, hdok, hnav] <;>
      omega
  | some rc =>
    obtain ⟨code, body⟩ := rc
    by_cases h200 : code = 200
    · subst h200
      simp [obter_conteudo_pagina, somaStats]
      omega
    · cases hsi : st.selenium_inicializado <;> cases hdok : dok <;> cases hnav : nav.1 <;>
        simp [obter_conteudo_pagina, passoSelenium, passoNavegar, somaStats,
          hsi, hdok, hnav, h200] <;>
        omega

/-- Once `selenium_inicializado` holds, a call neither constructs a new
strategy instance nor attempts a driver start, and the flag persists. -/
theorem selenium_persistente (st : EstadoGerenciador) (o : OraculoChamada)
    (h : st.selenium_inicializado = true) :
    contarEvento .evInicializarDriver (obter_conteudo_pagina st o).2.2 = 0 ∧
    contarEvento .evNovaInstanciaSelenium (obter_conteudo_pagina st o).2.2 = 0 ∧
    (obter_conteudo_pagina st o).2.1.selenium_inicializado = true := by
  obtain ⟨⟨resp, motivo⟩, dok, nav⟩ := o
  cases resp with
  | none =>
    cases hnav : nav.1 <;>
      simp [obter_conteudo_pagina, passoSelenium, passoNavegar, contarEvento, h, hnav]
  | some rc =>
    obtain ⟨code, body⟩ := rc
    by_cases h200 : code = 200
    · subst h200
      simp [obter_conteudo_pagina, contarEvento, h]
    · cases hnav : nav.1 <;>
        simp [obter_conteudo_pagina, passoSelenium, passoNavegar, contarEvento, h, hnav, h200]

/-- A first fallback call with a working driver attempts exactly one
driver start and leaves the flag set. -/
theorem selenium_primeira_chamada (st : EstadoGerenciador) (o : OraculoChamada)
    (hsi : st.selenium_inicializado = false) (hf : requisicaoFalhou o)
    (hdok : o.driverOk = true) :
    contarEvento .evInicializarDriver (obter_conteudo_pagina st o).2.2 = 1 ∧
    (obter_conteudo_pagina st o).2.1.selenium_inicializado = true := by
  obtain ⟨⟨resp, motivo⟩, dok, nav⟩ := o
  cases resp with
  | none =>
    cases hnav : nav.1 <;>
      simp_all [obter_conteudo_pagina, passoSelenium, passoNavegar, contarEvento]
  | some rc =>
    obtain ⟨code, body⟩ := rc
    have h200 : code ≠ 200 := hf
    cases hnav : nav.1 <;>
      simp_all [obter_conteudo_pagina, passoSelenium, passoNavegar, contarEvento]

/-- After the flag is set, a whole run of calls attempts no driver start. -/
theorem selenium_sem_reinicio (os : List OraculoChamada) :
    ∀ st : EstadoGerenciador, st.selenium_inicializado = true →
    contarEvento .evInicializarDriver (executarChamadas st os).2 = 0 := by
  induction os with
  | nil => intro st _; simp [executarChamadas, contarEvento]
  | cons o resto ih =>
    intro st h
    have hp := selenium_persistente st o h
    simp only [executarChamadas, contarEvento_append]
    rw [hp.1, ih _ hp.2.2]

/-- C2: within every single `obter_conteudo_pagina` call, the trace starts
with the one fast-strategy request (so the browser is never invoked before
the fast strategy finished), browser navigation happens at most once,
never when the fast strategy returned HTTP 200, and exactly once when the
fast strategy failed and the browser strategy is usable (already started
or startable). -/
theorem c2_fallback_sequencial (st : EstadoGerenciador) (o : OraculoChamada) :
    ((obter_conteudo_pagina st o).2.2).head? = some .evRequisicao ∧
    contarEvento .evRequisicao (obter_conteudo_pagina st o).2.2 = 1 ∧
    contarEvento .evNavegar (obter_conteudo_pagina st o).2.2 ≤ 1 ∧
    (∀ body m, o.requisicao = (some (200, body), m) →
       contarEvento .evNavegar (obter_conteudo_pagina st o).2.2 = 0) ∧
    (requisicaoFalhou o → (st.selenium_inicializado = true ∨ o.driverOk = true) →
       contarEvento .evNavegar (obter_conteudo_pagina st o).2.2 = 1) := by
  obtain ⟨⟨resp, motivo⟩, dok, nav⟩ := o
  cases resp with
  | none =>
    cases hsi : st.selenium_inicializado <;> cases hdok : dok <;> cases hnav : nav.1 <;>
      simp [obter_conteudo_pagina, passoSelenium, passoNavegar, contarEvento,
        requisicaoFalhou, hsi, hdok, hnav]
  | some rc =>
    obtain ⟨code, body⟩ := rc
    by_cases h200 : code = 200
    · subst h200
      simp [obter_conteudo_pagina, contarEvento, requisicaoFalhou]
    · cases hsi : st.selenium_inicializado <;> cases hdok : dok <;> cases hnav : nav.1 <;>
        simp [obter_conteudo_pagina, passoSelenium, passoNavegar, contarEvento,
          requisicaoFalhou, hsi, hdok, hnav, h200]

/-- Witness for C2: a blocked fast strategy triggers exactly one browser
navigation, an HTTP 200 triggers none. -/
theorem c2_fallback_sequencial_witness :
    contarEvento .evNavegar (obter_conteudo_pagina estadoInicial oFalhaRapida).2.2 = 1 ∧
    contarEvento .evNavegar (obter_conteudo_pagina estadoInicial oSucesso200).2.2 = 0 :=
  ⟨(c2_fallback_sequencial estadoInicial oFalhaRapida).2.2.2.2 trivial (Or.inr rfl),
   (c2_fallback_sequencial estadoInicial oSucesso200).2.2.2.1 "ok" "sucesso" rfl⟩

/-- C9: every fetch call increments exactly one of the three counters by
exactly one — the sum grows by one and no counter decreases, including on
the failed-driver-start path — so after any run of K calls the counters
sum to K, and nothing in the coordinator resets or decrements them. -/
theorem c9_soma_contadores :
    (∀ (st : EstadoGerenciador) (o : OraculoChamada),
       somaStats (obter_conteudo_pagina st o).2.1.stats = somaStats st.stats + 1 ∧
       st.stats.requests_sucesso ≤ (obter_conteudo_pagina st o).2.1.stats.requests_sucesso ∧
       st.stats.selenium_fallback ≤ (obter_conteudo_pagina st o).2.1.stats.selenium_fallback ∧
       st.stats.falhas_totais ≤ (obter_conteudo_pagina st o).2.1.stats.falhas_totais) ∧
    (∀ os : List OraculoChamada, somaStats (executarCoordenador os).1.stats = os.length) := by
  refine ⟨somaStats_obter, ?_⟩
  have geral : ∀ (os : List OraculoChamada) (st : EstadoGerenciador),
      somaStats (executarChamadas st os).1.stats = somaStats st.stats + os.length := by
    intro os
    induction os with
    | nil => intro st; simp [executarChamadas]
    | cons o resto ih =>
      intro st
      simp only [executarChamadas]
      rw [ih, (somaStats_obter st o).1]
      simp [Nat.add_comm, Nat.add_assoc, Nat.add_left_comm]
  intro os
  show somaStats (executarChamadas estadoInicial os).1.stats = os.length
  rw [geral]
  simp [estadoInicial, somaStats]

/-- C8 (counterexample): one fallback call with a working driver already
creates a second `ManipuladorSelenium()` instance (the constructor made
the first), and with a failing driver the spin-up attempt is repeated on
every call — two calls, two `inicializar_driver()` attempts — so neither
"only one instance per coordinator lifetime" nor "spin-up side effects
occur exactly once" holds as stated. -/
theorem c8_reinicio_contraexemplo :
    contarEvento .evNovaInstanciaSelenium (executarCoordenador [oFalhaRapida]).2 = 2 ∧
    contarEvento .evInicializarDriver (executarCoordenador [oDriverRuim, oDriverRuim]).2 = 2 :=
  ⟨by decide, by decide⟩

/-- C8 (amended): a fresh strategy instance is created by the constructor
and again on each fallback call until `inicializar_driver` first succeeds;
once `selenium_inicializado` is set, no further instance is created and no
further driver start is attempted — even after failed fetches — so across
any nonempty run of fallback calls with a working driver the spin-up
occurs exactly once. -/
theorem c8_driver_unico :
    (∀ (st : EstadoGerenciador) (o : OraculoChamada), st.selenium_inicializado = true →
       contarEvento .evInicializarDriver (obter_conteudo_pagina st o).2.2 = 0 ∧
       contarEvento .evNovaInstanciaSelenium (obter_conteudo_pagina st o).2.2 = 0 ∧
       (obter_conteudo_pagina st o).2.1.selenium_inicializado = true) ∧
    (∀ os : List OraculoChamada, os ≠ [] →
       (∀ o ∈ os, requisicaoFalhou o ∧ o.driverOk = true) →
       contarEvento .evInicializarDriver (executarChamadas estadoInicial os).2 = 1) := by
  refine ⟨selenium_persistente, ?_⟩
  intro os hne hos
  match os with
  | [] => exact absurd rfl hne
  | o :: resto =>
    have ho := hos o (List.mem_cons_self o resto)
    have hp := selenium_primeira_chamada estadoInicial o rfl ho.1 ho.2
    simp only [executarChamadas, contarEvento_append]
    rw [hp.1, selenium_sem_reinicio resto _ hp.2]

/-- Witness for C8: two consecutive blocked-then-fallback calls with a
working driver spin the engine up exactly once. -/
theorem c8_driver_unico_witness :
    contarEvento .evInicializarDriver
      (executarChamadas estadoInicial [oFalhaRapida, oFalhaRapida]).2 = 1 :=
  c8_driver_unico.2 [oFalhaRapida, oFalhaRapida] (by simp)
    (by
      intro o ho
      rcases List.mem_cons.mp ho with h | h
      · subst h; exact ⟨trivial, rfl⟩
      · rcases List.mem_cons.mp h with h2 | h2
        · subst h2; exact ⟨trivial, rfl⟩
        · cases h2)

/-- C4 (counterexample): in test mode, a results page with five matching
Petlove items still performs five secondary detail-page fetches — every
item is processed, with full variant fan-out, before the cap — and only
afterwards is the record list truncated to one. -/
theorem c4_cap_tardio_contraexemplo :
    (Petlove.buscar_medicamento true (some paginaCincoCartoes) "Bravecto" "requests"
        "2026-10-12" infoExemplo duasVariacoesPorPagina).2.length = 5 ∧
    (Petlove.buscar_medicamento true (some paginaCincoCartoes) "Bravecto" "requests"
        "2026-10-12" infoExemplo duasVariacoesPorPagina).1.length = 1 :=
  ⟨by decide, by decide⟩

/-- C4 (amended): test mode truncates the fully extracted record list to
its first element after extraction has finished — it changes neither which
items are processed nor the secondary fetches, which happen once per card
with a truthy product link regardless of mode. -/
theorem c4_cap_pos_extracao :
    (∀ (pagina : Option (List Petlove.CartaoPetlove))
       (medicamento metodo_usado hoje : String) (info : InfoMedicamento)
       (variacoesDe : String → List Petlove.Variacao),
       (Petlove.buscar_medicamento true pagina medicamento metodo_usado hoje info
           variacoesDe).1 =
         ((Petlove.buscar_medicamento false pagina medicamento metodo_usado hoje info
             variacoesDe).1).take 1 ∧
       (Petlove.buscar_medicamento true pagina medicamento metodo_usado hoje info
           variacoesDe).2 =
         (Petlove.buscar_medicamento false pagina medicamento metodo_usado hoje info
             variacoesDe).2) ∧
    (∀ (cartoes : List Petlove.CartaoPetlove)
       (medicamento metodo_usado hoje : String) (info : InfoMedicamento)
       (variacoesDe : String → List Petlove.Variacao),
       ((Petlove.extrair_produtos_pagina cartoes medicamento metodo_usado hoje info
           variacoesDe).2).length = (cartoes.filter temLinkVerdadeiro).length) := by
  constructor
  · intro pagina medicamento metodo_usado hoje info variacoesDe
    cases pagina with
    | none => exact ⟨rfl, rfl⟩
    | some cartoes =>
      simp only [Petlove.buscar_medicamento]
      rcases hpb : Petlove.extrair_produtos_pagina cartoes medicamento metodo_usado hoje info
          variacoesDe with ⟨produtos, buscas⟩
      cases produtos with
      | nil => simp
      | cons p resto => simp [List.take]
  · intro cartoes medicamento metodo_usado hoje info variacoesDe
    induction cartoes with
    | nil => rfl
    | cons c resto ih =>
      simp only [Petlove.extrair_produtos_pagina, List.filter_cons]
      rcases hpc : Petlove.processar_cartao medicamento metodo_usado hoje info variacoesDe c
        with ⟨ps, bs⟩
      have hbuscas : ∀ lp : Option String,
          (Petlove.buscarVariacoes variacoesDe lp).2.length =
            (match lp with
             | some l => if ¬l.data.isEmpty = true then 1 else 0
             | none => 0) := by
        intro lp
        cases lp with
        | none => rfl
        | some link =>
          by_cases he : link.data.isEmpty = true
          · simp [Petlove.buscarVariacoes, he]
          · simp [Petlove.buscarVariacoes, he]
      have hbs : bs.length = (if temLinkVerdadeiro c then 1 else 0) := by
        have hsegunda :
            (Petlove.processar_cartao medicamento metodo_usado hoje info variacoesDe c).2 =
            bs := by rw [hpc]
        rw [← hsegunda]
        simp only [Petlove.processar_cartao, temLinkVerdadeiro]
        rw [hbuscas]
        have hgeral : ∀ lp : Option String,
            (match lp with
             | some l => if ¬l.data.isEmpty = true then 1 else 0
             | none => 0) =
              (if (match lp with
                   | some l => decide ¬l.data.isEmpty = true
                   | none => false) = true then 1 else 0) := by
          intro lp
          cases lp with
          | none => rfl
          | some l => by_cases he : l.data.isEmpty = true <;> simp [he]
        exact hgeral _
      by_cases ht : temLinkVerdadeiro c = true
      · simp only [ht, if_true]
        simp [List.length_append, hbs, ht, ih, Nat.add_comm]
      · simp only [Bool.not_eq_true] at ht
        simp [List.length_append, hbs, ht, ih]

end VetData
